import Mathlib

/-!
Shallow embedding of the frame-handoff, edge-triggered input, and shutdown
subsystem of `src/sdl_backend.cpp` (nesalizerX).

The mutable globals of the source file
(`back_buffer`, `front_buffer`, `ready_to_draw_new_frame`, `frame_available`,
`pending_sdl_thread_exit`, and the two pixel arrays `render_buffers[2]`)
are collected into one state record `FrameState`.  Pixel buffers are modelled
as a store mapping a buffer handle (`Bool`, for the two physical arrays
`render_buffers[0]` and `render_buffers[1]`) and a linear pixel index to a
colour value; the C pointers `back_buffer` / `front_buffer` become the two
handle fields, so the pointer swap in `draw_frame` is a pure handle exchange
and never touches the store.

Each operation that the source performs inside one
`SDL_LockMutex(frame_lock)` … `SDL_UnlockMutex(frame_lock)` critical section
is modelled as a single atomic transition on `FrameState`.  The lock and
condition-variable structure itself is modelled separately as the event
trace each function emits (`FrameEvt` / `UIEvt` lists), on which being
inside the critical section is decidable.
-/

namespace Nesalizer

/-- State of the frame handoff subsystem: the two pixel buffers
(`store` indexed by a physical-buffer handle), the `back_buffer` and
`front_buffer` handles, and the three flags shared under `frame_lock`. -/
structure FrameState where
  store : Bool → Nat → Nat
  back_buffer : Bool
  front_buffer : Bool
  ready_to_draw_new_frame : Bool
  frame_available : Bool
  pending_sdl_thread_exit : Bool

/-- Embeds `put_pixel` (sdl_backend.cpp lines 82-87): `assert(x < 256);
assert(y < 240); back_buffer[256*y + x] = color;`.  A failed assertion is
the fatal path, modelled as `none`. -/
def put_pixel (s : FrameState) (x y color : Nat) : Option FrameState :=
  if x < 256 then
    if y < 240 then
      some { s with store := fun b i =>
        if b = s.back_buffer ∧ i = 256 * y + x then color else s.store b i }
    else none
  else none

/-- Embeds `draw_frame` (lines 89-106): under `frame_lock`, if
`ready_to_draw_new_frame` then set `frame_available`, `swap(back_buffer,
front_buffer)` and `SDL_CondSignal(frame_available_cond)`; otherwise drop
the frame.  The returned `Bool` records whether the condition variable was
signalled. -/
def draw_frame (s : FrameState) : FrameState × Bool :=
  if s.ready_to_draw_new_frame then
    ({ s with frame_available := true,
              back_buffer := s.front_buffer,
              front_buffer := s.back_buffer }, true)
  else (s, false)

/-- Embeds the entry of the wait phase of `sdl_thread` (line 213):
`ready_to_draw_new_frame = true` right after taking `frame_lock`. -/
def wait_enter (s : FrameState) : FrameState :=
  { s with ready_to_draw_new_frame := true }

/-- Result of the wait phase of `sdl_thread`: either the shutdown return
(lines 216-219) or the consumed frame, identified by the buffer handle the
thread goes on to upload (`front_buffer`, line 231). -/
inductive WaitResult where
  | shutdown : WaitResult
  | frame : Bool → WaitResult
deriving DecidableEq

/-- Embeds the exit of the wait phase of `sdl_thread` (lines 214-221):
`while (!frame_available && !pending_sdl_thread_exit) SDL_CondWait(...)` —
still blocked is `none`; then `if (pending_sdl_thread_exit) { unlock;
return; }` — the shutdown return; otherwise `frame_available =
ready_to_draw_new_frame = false` and the thread consumes `front_buffer`. -/
def wait_exit (s : FrameState) : Option (FrameState × WaitResult) :=
  if s.frame_available = false ∧ s.pending_sdl_thread_exit = false then
    none
  else if s.pending_sdl_thread_exit = true then
    some (s, WaitResult.shutdown)
  else
    some ({ s with frame_available := false, ready_to_draw_new_frame := false },
          WaitResult.frame s.front_buffer)

/-- Embeds `exit_sdl_thread` (lines 267-272): under `frame_lock`, set
`pending_sdl_thread_exit = true` and `SDL_CondSignal(frame_available_cond)`.
The returned `Bool` records that the condition variable was signalled. -/
def exit_sdl_thread (s : FrameState) : FrameState × Bool :=
  ({ s with pending_sdl_thread_exit := true }, true)

/-- The state set up by `init_sdl` (lines 344-346): `back_buffer =
render_buffers[0]`, `front_buffer = render_buffers[1]`, static buffers
zero-initialised, all flags false. -/
def init_state : FrameState :=
  { store := fun _ _ => 0
    back_buffer := false
    front_buffer := true
    ready_to_draw_new_frame := false
    frame_available := false
    pending_sdl_thread_exit := false }

/-- Concrete state with the presenter ready for a frame, for evaluating the
handoff operations. -/
def ready_state : FrameState :=
  { init_state with ready_to_draw_new_frame := true }

/-- Concrete state with a shutdown already requested, for evaluating the
wait phase. -/
def pending_state : FrameState :=
  { init_state with pending_sdl_thread_exit := true }

/-- Concrete state with a frame pending, for evaluating the wait phase. -/
def avail_state : FrameState :=
  { init_state with frame_available := true }

/-- Concrete result of writing colour `7` at the maximal coordinates
`(255, 239)` from the initial state. -/
def pixel_state : FrameState :=
  { init_state with store := fun b i =>
      if b = init_state.back_buffer ∧ i = 256 * 239 + 255 then 7
      else init_state.store b i }

/-- Labels for the atomic transitions on the handoff state: a producer
`draw_frame` call, a producer `put_pixel` call, the presenter entering the
wait phase, the presenter leaving the wait phase (consume or shutdown
return), and an `exit_sdl_thread` call. -/
inductive Label where
  | publish : Label
  | write : Nat → Nat → Nat → Label
  | enter : Label
  | consume : Label
  | shutdownReq : Label
deriving DecidableEq

/-- One atomic transition of the handoff subsystem; each constructor is one
critical section of the source. -/
inductive Step : FrameState → Label → FrameState → Prop where
  | publish (s : FrameState) : Step s Label.publish (draw_frame s).1
  | write (s : FrameState) (x y c : Nat) (s' : FrameState) :
      put_pixel s x y c = some s' → Step s (Label.write x y c) s'
  | enter (s : FrameState) : Step s Label.enter (wait_enter s)
  | consume (s s' : FrameState) (r : WaitResult) :
      wait_exit s = some (s', r) → Step s Label.consume s'
  | shutdownReq (s : FrameState) : Step s Label.shutdownReq (exit_sdl_thread s).1

/-- States reachable from the post-`init_sdl` state by handoff steps. -/
inductive Reachable : FrameState → Prop where
  | init : Reachable init_state
  | step {s : FrameState} {l : Label} {s' : FrameState} :
      Reachable s → Step s l s' → Reachable s'

/-- Events emitted by the functions that use `frame_lock`, in source
order. -/
inductive FrameEvt where
  | lockFrame : FrameEvt
  | unlockFrame : FrameEvt
  | setAvailable : FrameEvt
  | swapBuffers : FrameEvt
  | signalCond : FrameEvt
  | setPendingExit : FrameEvt
deriving DecidableEq

/-- Event trace of `draw_frame` (lines 96-105) for each value of
`ready_to_draw_new_frame`. -/
def draw_frame_events (ready : Bool) : List FrameEvt :=
  if ready then
    [FrameEvt.lockFrame, FrameEvt.setAvailable, FrameEvt.swapBuffers,
     FrameEvt.signalCond, FrameEvt.unlockFrame]
  else
    [FrameEvt.lockFrame, FrameEvt.unlockFrame]

/-- Event trace of `exit_sdl_thread` (lines 267-272). -/
def exit_sdl_thread_events : List FrameEvt :=
  [FrameEvt.lockFrame, FrameEvt.setPendingExit, FrameEvt.signalCond,
   FrameEvt.unlockFrame]

/-- Checks that every effect event of a trace occurs at lock depth at least
one, i.e. inside a critical section; `d` is the current lock depth. -/
def lockDepthOK : List FrameEvt → Nat → Bool
  | [], _ => true
  | FrameEvt.lockFrame :: es, d => lockDepthOK es (d + 1)
  | FrameEvt.unlockFrame :: es, d => decide (0 < d) && lockDepthOK es (d - 1)
  | _ :: es, d => decide (0 < d) && lockDepthOK es d

/-- Producer-side / wait-entry operations for drop-property traces: pixel
writes, publishes, and the presenter re-entering the wait phase (which is
not a consume). -/
inductive POp where
  | write : Nat → Nat → Nat → POp
  | publish : POp
  | enter : POp
deriving DecidableEq

/-- Runs one operation; an out-of-bounds `put_pixel` aborts the run. -/
def runOp (s : FrameState) : POp → Option FrameState
  | POp.write x y c => put_pixel s x y c
  | POp.publish => some (draw_frame s).1
  | POp.enter => some (wait_enter s)

/-- Runs a list of operations left to right. -/
def run (s : FrameState) : List POp → Option FrameState
  | [] => some s
  | op :: ops => (runOp s op).bind fun t => run t ops

/-- Embeds the edge-detection macro `KEY_PRESSED(i)` (line 136):
`(keys[i]) & (!keys_lf[i])`, with C logical negation `!v` giving `1` when
`v = 0` and `0` otherwise, and `&` the bitwise and. -/
def KEY_PRESSED (keys keys_lf : List Nat) (i : Nat) : Nat :=
  Nat.land (keys.getD i 0) (if keys_lf.getD i 0 = 0 then 1 else 0)

/-- Embeds the edge-detection macro `KEY_RELEASED(i)` (line 137):
`(!keys[i]) & (keys_lf[i])`. -/
def KEY_RELEASED (keys keys_lf : List Nat) (i : Nat) : Nat :=
  Nat.land (if keys.getD i 0 = 0 then 1 else 0) (keys_lf.getD i 0)

/-- SDL scancode constants used by `handle_ui_keys`. -/
def SDL_SCANCODE_ESCAPE : Nat := 41

def SDL_SCANCODE_F3 : Nat := 60

def SDL_SCANCODE_F4 : Nat := 61

def SDL_SCANCODE_LALT : Nat := 226

def SDL_SCANCODE_D : Nat := 7

def SDL_SCANCODE_F5 : Nat := 62

def SDL_SCANCODE_F8 : Nat := 65

def SDL_SCANCODE_BACKSPACE : Nat := 42

/-- Events of `handle_ui_keys` relevant to the locking discipline of
`event_lock`: taking and releasing the lock, a read of `keys[code]`, an
edge-sensitive read (a `KEY_PRESSED` use, reading `keys[code]` and
`keys_lf[code]`), and the commit `memcpy(keys_lf, keys, ...)`. -/
inductive UIEvt where
  | lockEvent : UIEvt
  | unlockEvent : UIEvt
  | readKeys : Nat → UIEvt
  | readEdge : Nat → UIEvt
  | commitLastFrame : UIEvt
deriving DecidableEq

/-- Event trace of one `handle_ui_keys` call (lines 146-175) with
`keys_size > 0` (the normal case, in which the final `memcpy` runs), in
source order: `SDL_LockMutex(event_lock)`, the key reads of lines 149-168,
`SDL_UnlockMutex(event_lock)` (line 173), then the commit
`memcpy(keys_lf, keys, keys_size)` (line 174). -/
def handle_ui_keys_events : List UIEvt :=
  [UIEvt.lockEvent,
   UIEvt.readKeys SDL_SCANCODE_ESCAPE,
   UIEvt.readEdge SDL_SCANCODE_F3,
   UIEvt.readEdge SDL_SCANCODE_F4,
   UIEvt.readKeys SDL_SCANCODE_LALT,
   UIEvt.readEdge SDL_SCANCODE_D,
   UIEvt.readKeys SDL_SCANCODE_F5,
   UIEvt.readKeys SDL_SCANCODE_F8,
   UIEvt.readKeys SDL_SCANCODE_BACKSPACE,
   UIEvt.unlockEvent,
   UIEvt.commitLastFrame]

/-- Counts the commit events of a `handle_ui_keys` trace. -/
def countCommit : List UIEvt → Nat
  | [] => 0
  | UIEvt.commitLastFrame :: es => countCommit es + 1
  | _ :: es => countCommit es

/-- Index of the first occurrence of an event in a trace (length when
absent). -/
def idxOfEvt (e : UIEvt) : List UIEvt → Nat
  | [] => 0
  | e' :: es => if e' = e then 0 else idxOfEvt e es + 1

/-- Checks that every read and commit event of a `handle_ui_keys` trace
occurs at lock depth at least one, i.e. inside a critical section of
`event_lock`. -/
def uiLockDepthOK : List UIEvt → Nat → Bool
  | [], _ => true
  | UIEvt.lockEvent :: es, d => uiLockDepthOK es (d + 1)
  | UIEvt.unlockEvent :: es, d => decide (0 < d) && uiLockDepthOK es (d - 1)
  | _ :: es, d => decide (0 < d) && uiLockDepthOK es d

/-! Helper lemmas shared by several claims. -/

/-- Characterisation of a successful `put_pixel` call: the asserts held and
only the store changed, at the back buffer's cell `256*y + x`. -/
theorem put_pixel_some {s : FrameState} {x y c : Nat} {s' : FrameState}
    (h : put_pixel s x y c = some s') :
    x < 256 ∧ y < 240 ∧ s' = { s with store := fun b i =>
      if b = s.back_buffer ∧ i = 256 * y + x then c else s.store b i } := by
  unfold put_pixel at h
  by_cases hx : x < 256
  · by_cases hy : y < 240
    · rw [if_pos hx, if_pos hy] at h
      exact ⟨hx, hy, (Option.some.inj h).symm⟩
    · rw [if_pos hx, if_neg hy] at h
      cases h
  · rw [if_neg hx] at h
    cases h

/-- Inversion for `Step`: each label determines the transition taken. -/
theorem step_inv {s : FrameState} {l : Label} {s' : FrameState}
    (h : Step s l s') :
    (l = Label.publish ∧ s' = (draw_frame s).1)
    ∨ (∃ x y c, l = Label.write x y c ∧ put_pixel s x y c = some s')
    ∨ (l = Label.enter ∧ s' = wait_enter s)
    ∨ (l = Label.consume ∧ ∃ r, wait_exit s = some (s', r))
    ∨ (l = Label.shutdownReq ∧ s' = (exit_sdl_thread s).1) := by
  cases h with
  | publish => exact Or.inl ⟨rfl, rfl⟩
  | write x y c s2 hw => exact Or.inr (Or.inl ⟨x, y, c, rfl, hw⟩)
  | enter => exact Or.inr (Or.inr (Or.inl ⟨rfl, rfl⟩))
  | consume s2 r hc => exact Or.inr (Or.inr (Or.inr (Or.inl ⟨rfl, r, hc⟩)))
  | shutdownReq => exact Or.inr (Or.inr (Or.inr (Or.inr ⟨rfl, rfl⟩)))

/-- Characterisation of a non-blocked wait-phase exit: either the shutdown
return (state unchanged) or a consumed frame with both flags cleared. -/
theorem wait_exit_some {s s' : FrameState} {r : WaitResult}
    (h : wait_exit s = some (s', r)) :
    (s.pending_sdl_thread_exit = true ∧ s' = s ∧ r = WaitResult.shutdown)
    ∨ (s.pending_sdl_thread_exit = false ∧ s.frame_available = true
        ∧ s' = { s with frame_available := false,
                        ready_to_draw_new_frame := false }
        ∧ r = WaitResult.frame s.front_buffer) := by
  cases hf : s.frame_available <;> cases hp : s.pending_sdl_thread_exit <;>
    simp only [wait_exit, hf, hp] at h <;> simp at h
  · exact Or.inl ⟨rfl, h.1.symm, h.2.symm⟩
  · exact Or.inr ⟨rfl, rfl, h.1.symm, h.2.symm⟩
  · exact Or.inl ⟨rfl, h.1.symm, h.2.symm⟩

/-! Theorems for the claims. -/

/-- C1: `draw_frame` with `ready_to_draw_new_frame` true sets
`frame_available`, exchanges the two buffer handles without touching any
pixel store, and signals the condition variable; its event trace keeps
every effect inside the `frame_lock` critical section. -/
theorem draw_frame_ready_spec (s : FrameState)
    (h : s.ready_to_draw_new_frame = true) :
    (draw_frame s).1.frame_available = true
    ∧ (draw_frame s).1.back_buffer = s.front_buffer
    ∧ (draw_frame s).1.front_buffer = s.back_buffer
    ∧ (draw_frame s).1.store = s.store
    ∧ (draw_frame s).2 = true
    ∧ lockDepthOK (draw_frame_events true) 0 = true
    ∧ FrameEvt.signalCond ∈ draw_frame_events true := by
  refine ⟨?_, ?_, ?_, ?_, ?_, by decide, by decide⟩ <;> simp [draw_frame, h]

/-- C2: `draw_frame` with `ready_to_draw_new_frame` false drops the frame:
the state is returned unchanged (no swap, flags and stores untouched), the
condition variable is not signalled, and the trace contains no effect
event. -/
theorem draw_frame_drop_spec (s : FrameState)
    (h : s.ready_to_draw_new_frame = false) :
    draw_frame s = (s, false)
    ∧ FrameEvt.signalCond ∉ draw_frame_events false
    ∧ FrameEvt.setAvailable ∉ draw_frame_events false
    ∧ FrameEvt.swapBuffers ∉ draw_frame_events false := by
  refine ⟨?_, by decide, by decide, by decide⟩
  simp [draw_frame, h]

/-- C3: the wait phase of `sdl_thread` sets `ready_to_draw_new_frame` on
entry, blocks exactly while `frame_available` and `pending_sdl_thread_exit`
are both false, returns the shutdown outcome when shutdown was requested,
and otherwise clears both flags and returns the current `front_buffer`
handle. -/
theorem wait_for_frame_spec (s : FrameState) :
    (wait_enter s).ready_to_draw_new_frame = true
    ∧ (wait_exit s = none
        ↔ s.frame_available = false ∧ s.pending_sdl_thread_exit = false)
    ∧ (s.pending_sdl_thread_exit = true →
        wait_exit s = some (s, WaitResult.shutdown))
    ∧ (s.pending_sdl_thread_exit = false → s.frame_available = true →
        wait_exit s =
          some ({ s with frame_available := false,
                         ready_to_draw_new_frame := false },
                WaitResult.frame s.front_buffer)) := by
  cases hf : s.frame_available <;> cases hp : s.pending_sdl_thread_exit <;>
    simp [wait_enter, wait_exit, hf, hp]

/-- C6: `put_pixel` succeeds exactly when `x < 256` and `y < 240`, writing
the back buffer at `256*y + x`; at the maximal coordinates `(255, 239)` it
succeeds, and one past either bound the assertion fails (the fatal path,
`none`). -/
theorem put_pixel_bounds_spec (s : FrameState) (x y c : Nat) :
    (x < 256 → y < 240 →
      put_pixel s x y c = some { s with store := fun b i =>
        if b = s.back_buffer ∧ i = 256 * y + x then c else s.store b i })
    ∧ (256 ≤ x → put_pixel s x y c = none)
    ∧ (240 ≤ y → put_pixel s x y c = none) := by
  refine ⟨fun hx hy => ?_, fun hx => ?_, fun hy => ?_⟩
  · simp [put_pixel, hx, hy]
  · simp [put_pixel, Nat.not_lt.mpr hx]
  · simp [put_pixel, Nat.not_lt.mpr hy]

/-- C10: a successful `put_pixel s x y c` call modifies exactly the back
buffer's cell `256*y + x`: every other back-buffer cell, every cell of any
other physical buffer (in particular the whole front buffer, the handles
being distinct), both handle fields, and all three flags are unchanged. -/
theorem put_pixel_frame_effect_spec (s : FrameState) (x y c : Nat)
    (s' : FrameState) (h : put_pixel s x y c = some s') :
    s'.store s.back_buffer (256 * y + x) = c
    ∧ (∀ i, i ≠ 256 * y + x → s'.store s.back_buffer i = s.store s.back_buffer i)
    ∧ (∀ b, b ≠ s.back_buffer → ∀ i, s'.store b i = s.store b i)
    ∧ s'.back_buffer = s.back_buffer
    ∧ s'.front_buffer = s.front_buffer
    ∧ s'.frame_available = s.frame_available
    ∧ s'.ready_to_draw_new_frame = s.ready_to_draw_new_frame
    ∧ s'.pending_sdl_thread_exit = s.pending_sdl_thread_exit
    ∧ (s.back_buffer ≠ s.front_buffer →
        ∀ i, s'.store s.front_buffer i = s.store s.front_buffer i) := by
  obtain ⟨hx, hy, rfl⟩ := put_pixel_some h
  refine ⟨by simp, fun i hi => by simp [hi], fun b hb i => by simp [hb],
    rfl, rfl, rfl, rfl, rfl, fun hbf i => ?_⟩
  simp
  intro hc
  exact absurd hc.symm hbf

/-- C4: along any step from a reachable state, `frame_available` turns true
only on a publish step taken while `ready_to_draw_new_frame` was true, and
turns false only on the presenter's consume step. -/
theorem frame_available_transition_spec (s : FrameState) (l : Label)
    (s' : FrameState) (hr : Reachable s) (hstep : Step s l s') :
    (s'.frame_available = true → s.frame_available = false →
      l = Label.publish ∧ s.ready_to_draw_new_frame = true)
    ∧ (s'.frame_available = false → s.frame_available = true →
      l = Label.consume) := by
  rcases step_inv hstep with ⟨rfl, rfl⟩ | ⟨x, y, c, rfl, hw⟩ | ⟨rfl, rfl⟩
    | ⟨rfl, r, hc⟩ | ⟨rfl, rfl⟩
  · by_cases h : s.ready_to_draw_new_frame = true
    · refine ⟨fun _ _ => ⟨rfl, h⟩, fun h1 h2 => ?_⟩
      simp [draw_frame, h] at h1
    · have hd : draw_frame s = (s, false) := by simp [draw_frame, h]
      rw [hd]
      exact ⟨fun h1 h2 => absurd h1 (by simp [h2]),
             fun h1 h2 => absurd h1 (by simp [h2])⟩
  · obtain ⟨-, -, rfl⟩ := put_pixel_some hw
    exact ⟨fun h1 h2 => absurd h1 (by simp [h2]),
           fun h1 h2 => absurd h1 (by simp [h2])⟩
  · exact ⟨fun h1 h2 => absurd h1 (by simp [wait_enter, h2]),
           fun h1 h2 => absurd h1 (by simp [wait_enter, h2])⟩
  · refine ⟨fun h1 h2 => ?_, fun _ _ => rfl⟩
    rcases wait_exit_some hc with ⟨hp, rfl, -⟩ | ⟨hp, hf, rfl, -⟩
    · exact absurd h1 (by simp [h2])
    · exact absurd hf (by simp [h2])
  · exact ⟨fun h1 h2 => absurd h1 (by simp [exit_sdl_thread, h2]),
           fun h1 h2 => absurd h1 (by simp [exit_sdl_thread, h2])⟩

/-- C8 (code bug): in the `handle_ui_keys` trace the commit
`memcpy(keys_lf, keys, ...)` occurs exactly once, but it occurs after
`SDL_UnlockMutex(event_lock)` — outside the critical section that contains
every key read — contradicting the claim and the source's own comment that
`event_lock` protects `keys` from being read while being updated. -/
theorem commit_outside_lock :
    countCommit handle_ui_keys_events = 1
    ∧ idxOfEvt UIEvt.unlockEvent handle_ui_keys_events
        < idxOfEvt UIEvt.commitLastFrame handle_ui_keys_events
    ∧ uiLockDepthOK handle_ui_keys_events 0 = false := by decide

/-- C9: `exit_sdl_thread` sets the shutdown flag and signals the same
condition variable as `draw_frame`, under `frame_lock`; from any state in
which the presenter is blocked in the wait phase, one shutdown step makes
the wait phase return the shutdown outcome with no publish needed, the flag
is preserved by every further step, and while it holds the wait phase never
blocks again. -/
theorem shutdown_terminal_spec (s : FrameState) :
    (exit_sdl_thread s).1.pending_sdl_thread_exit = true
    ∧ (exit_sdl_thread s).2 = true
    ∧ lockDepthOK exit_sdl_thread_events 0 = true
    ∧ FrameEvt.signalCond ∈ exit_sdl_thread_events
    ∧ FrameEvt.signalCond ∈ draw_frame_events true
    ∧ (wait_exit s = none →
        wait_exit (exit_sdl_thread s).1
          = some ((exit_sdl_thread s).1, WaitResult.shutdown))
    ∧ (∀ t t' : FrameState, ∀ l : Label, t.pending_sdl_thread_exit = true →
        Step t l t' → t'.pending_sdl_thread_exit = true)
    ∧ (∀ t : FrameState, t.pending_sdl_thread_exit = true →
        wait_exit t = some (t, WaitResult.shutdown)) := by
  have hwait : ∀ t : FrameState, t.pending_sdl_thread_exit = true →
      wait_exit t = some (t, WaitResult.shutdown) := by
    intro t ht
    rw [wait_exit, if_neg (by simp [ht]), if_pos ht]
  refine ⟨rfl, rfl, by decide, by decide, by decide, fun _ => ?_, ?_, hwait⟩
  · exact hwait _ rfl
  · intro t t' l ht hstep
    rcases step_inv hstep with ⟨rfl, rfl⟩ | ⟨x, y, c, rfl, hw⟩ | ⟨rfl, rfl⟩
      | ⟨rfl, r, hc⟩ | ⟨rfl, rfl⟩
    · by_cases h : t.ready_to_draw_new_frame = true <;> simp [draw_frame, h, ht]
    · obtain ⟨-, -, rfl⟩ := put_pixel_some hw
      exact ht
    · exact ht
    · rcases wait_exit_some hc with ⟨hp, rfl, -⟩ | ⟨hp, -, rfl, -⟩
      · exact ht
      · exact ht
    · rfl

/-- C7: with boolean-valued snapshot arrays of equal length, `KEY_PRESSED i`
is nonzero exactly when the key is held now and was not held last frame, and
`KEY_RELEASED i` exactly when it is not held now and was held last frame; on
`keys_lf = [1,0,1]`, `keys = [1,1,0]`, index 1 reports pressed, index 2
reports released, and index 0 reports neither. -/
theorem edge_detect_spec (keys keys_lf : List Nat)
    (_hlen : keys.length = keys_lf.length)
    (hk : ∀ i, keys.getD i 0 ≤ 1) (hl : ∀ i, keys_lf.getD i 0 ≤ 1) :
    (∀ i, i < keys.length →
      ((KEY_PRESSED keys keys_lf i ≠ 0
          ↔ keys.getD i 0 = 1 ∧ keys_lf.getD i 0 = 0)
        ∧ (KEY_RELEASED keys keys_lf i ≠ 0
          ↔ keys.getD i 0 = 0 ∧ keys_lf.getD i 0 = 1)))
    ∧ (KEY_PRESSED [1, 1, 0] [1, 0, 1] 1 ≠ 0
        ∧ KEY_RELEASED [1, 1, 0] [1, 0, 1] 2 ≠ 0
        ∧ KEY_PRESSED [1, 1, 0] [1, 0, 1] 0 = 0
        ∧ KEY_RELEASED [1, 1, 0] [1, 0, 1] 0 = 0
        ∧ KEY_PRESSED [1, 1, 0] [1, 0, 1] 2 = 0
        ∧ KEY_RELEASED [1, 1, 0] [1, 0, 1] 1 = 0) := by
  refine ⟨fun i _ => ?_, by decide⟩
  rcases Nat.le_one_iff_eq_zero_or_eq_one.mp (hk i) with h1 | h1 <;>
    rcases Nat.le_one_iff_eq_zero_or_eq_one.mp (hl i) with h2 | h2 <;>
      rw [KEY_PRESSED, KEY_RELEASED, h1, h2] <;> decide

/-- One producer-side operation preserves the handoff invariant that a
pending frame implies the presenter had announced readiness. -/
theorem runOp_preserves_inv {s m : FrameState} {op : POp}
    (h : runOp s op = some m)
    (hinv : s.frame_available = true → s.ready_to_draw_new_frame = true) :
    m.frame_available = true → m.ready_to_draw_new_frame = true := by
  cases op with
  | write x y c =>
      obtain ⟨-, -, rfl⟩ := put_pixel_some h
      exact hinv
  | publish =>
      simp only [runOp] at h
      obtain rfl := Option.some.inj h
      by_cases hr : s.ready_to_draw_new_frame = true
      · intro _
        simp [draw_frame, hr]
      · have hd : draw_frame s = (s, false) := by simp [draw_frame, hr]
        rw [hd]
        exact hinv
  | enter =>
      simp only [runOp] at h
      obtain rfl := Option.some.inj h
      intro _
      rfl

/-- A producer-side run preserves the invariant that a pending frame
implies announced readiness. -/
theorem run_preserves_inv {ops : List POp} {s s' : FrameState}
    (h : run s ops = some s')
    (hinv : s.frame_available = true → s.ready_to_draw_new_frame = true) :
    s'.frame_available = true → s'.ready_to_draw_new_frame = true := by
  induction ops generalizing s with
  | nil =>
      cases Option.some.inj h
      exact hinv
  | cons op ops ih =>
      simp only [run] at h
      cases hro : runOp s op with
      | none =>
          rw [hro] at h
          cases h
      | some t =>
          rw [hro] at h
          exact ih h (runOp_preserves_inv hro hinv)

/-- A producer-side run keeps the two buffer handles distinct. -/
theorem run_preserves_ne {ops : List POp} {s s' : FrameState}
    (h : run s ops = some s') (hbf : s.back_buffer ≠ s.front_buffer) :
    s'.back_buffer ≠ s'.front_buffer := by
  induction ops generalizing s with
  | nil =>
      cases Option.some.inj h
      exact hbf
  | cons op ops ih =>
      simp only [run] at h
      cases hro : runOp s op with
      | none =>
          rw [hro] at h
          cases h
      | some t =>
          rw [hro] at h
          refine ih h ?_
          cases op with
          | write x y c =>
              obtain ⟨-, -, rfl⟩ := put_pixel_some hro
              exact hbf
          | publish =>
              simp only [runOp] at hro
              obtain rfl := Option.some.inj hro
              by_cases hr : s.ready_to_draw_new_frame = true
              · simp only [draw_frame, if_pos hr]
                exact fun hc => hbf hc.symm
              · have hd : draw_frame s = (s, false) := by simp [draw_frame, hr]
                rw [hd]
                exact hbf
          | enter =>
              simp only [runOp] at hro
              obtain rfl := Option.some.inj hro
              exact hbf

/-- A publish-free producer-side run leaves `frame_available`, both handles,
and every physical buffer other than the back buffer (in particular the
whole front buffer) unchanged. -/
theorem run_pubfree {ops : List POp} (hops : POp.publish ∉ ops)
    {s s' : FrameState} (h : run s ops = some s') :
    s'.frame_available = s.frame_available
    ∧ s'.back_buffer = s.back_buffer
    ∧ s'.front_buffer = s.front_buffer
    ∧ s'.pending_sdl_thread_exit = s.pending_sdl_thread_exit
    ∧ ∀ b, b ≠ s.back_buffer → ∀ i, s'.store b i = s.store b i := by
  induction ops generalizing s with
  | nil =>
      cases Option.some.inj h
      exact ⟨rfl, rfl, rfl, rfl, fun b _ i => rfl⟩
  | cons op ops ih =>
      simp only [run] at h
      cases hro : runOp s op with
      | none =>
          rw [hro] at h
          cases h
      | some t =>
          rw [hro] at h
          have hop : op ≠ POp.publish := fun he =>
            hops (he ▸ List.mem_cons_self op ops)
          have hih := ih (fun hm => hops (List.mem_cons_of_mem op hm)) h
          cases op with
          | write x y c =>
              obtain ⟨-, -, rfl⟩ := put_pixel_some hro
              refine ⟨hih.1, hih.2.1, hih.2.2.1, hih.2.2.2.1, fun b hb i => ?_⟩
              rw [hih.2.2.2.2 b hb i]
              simp [fun hc : b = s.back_buffer => hb hc]
          | publish => exact absurd rfl hop
          | enter =>
              simp only [runOp] at hro
              obtain rfl := Option.some.inj hro
              exact hih

/-- C5: starting from a state satisfying the handoff invariants, after any
producer trace `pre`, a publish followed by any publish-free tail with no
intervening consume leaves exactly that publish's back-buffer content (as
it stood at the publish) as the front buffer the presenter receives at its
next wait return; and two publishes made while `ready_to_draw_new_frame`
is false are both dropped, the state unchanged. -/
theorem drop_last_publish_spec (s m s' : FrameState) (pre post : List POp)
    (hinv : s.frame_available = true → s.ready_to_draw_new_frame = true)
    (hbf : s.back_buffer ≠ s.front_buffer)
    (hpre : run s pre = some m)
    (hpost : POp.publish ∉ post)
    (hrun : run m (POp.publish :: post) = some s')
    (hfa : s'.frame_available = true) :
    (s'.front_buffer = m.back_buffer
      ∧ (∀ i, s'.store s'.front_buffer i = m.store m.back_buffer i)
      ∧ (s'.pending_sdl_thread_exit = false →
          wait_exit s' = some ({ s' with frame_available := false,
                                         ready_to_draw_new_frame := false },
                               WaitResult.frame s'.front_buffer)))
    ∧ (∀ t : FrameState, t.ready_to_draw_new_frame = false →
        run t [POp.publish, POp.publish] = some t) := by
  have hdrop : ∀ t : FrameState, t.ready_to_draw_new_frame = false →
      run t [POp.publish, POp.publish] = some t := by
    intro t ht
    have hd : draw_frame t = (t, false) := by simp [draw_frame, ht]
    simp [run, runOp, hd]
  have hrun' : run (draw_frame m).1 post = some s' := hrun
  by_cases hr : m.ready_to_draw_new_frame = true
  · have hm1 : (draw_frame m).1 =
        { m with frame_available := true,
                 back_buffer := m.front_buffer,
                 front_buffer := m.back_buffer } := by
      simp [draw_frame, hr]
    rw [hm1] at hrun'
    have hmbf : m.back_buffer ≠ m.front_buffer := run_preserves_ne hpre hbf
    obtain ⟨-, -, hfront, -, hstore⟩ := run_pubfree hpost hrun'
    have hfr : s'.front_buffer = m.back_buffer := hfront
    refine ⟨⟨hfr, fun i => ?_, fun hp => ?_⟩, hdrop⟩
    · rw [hfr]
      exact hstore m.back_buffer (fun hc => hmbf (hc.trans rfl)) i
    · rw [wait_exit, if_neg (by simp [hfa]), if_neg (by simp [hp])]
  · have hd : draw_frame m = (m, false) := by simp [draw_frame, hr]
    rw [hd] at hrun'
    have hmfa : m.frame_available = false := by
      cases hmf : m.frame_available with
      | false => rfl
      | true => exact absurd (run_preserves_inv hpre hinv hmf) hr
    obtain ⟨hfa2, -, -, -, -⟩ := run_pubfree hpost hrun'
    rw [hfa, hmfa] at hfa2
    cases hfa2

/-! Witnesses: each theorem with hypotheses evaluated at a concrete
state. -/

/-- Witness for C1 at the ready initial state. -/
theorem draw_frame_ready_spec_witness :
    (draw_frame ready_state).1.frame_available = true
    ∧ (draw_frame ready_state).1.back_buffer = ready_state.front_buffer
    ∧ (draw_frame ready_state).1.front_buffer = ready_state.back_buffer
    ∧ (draw_frame ready_state).1.store = ready_state.store
    ∧ (draw_frame ready_state).2 = true
    ∧ lockDepthOK (draw_frame_events true) 0 = true
    ∧ FrameEvt.signalCond ∈ draw_frame_events true :=
  draw_frame_ready_spec ready_state rfl

/-- Witness for C2 at the initial state, whose ready flag is false. -/
theorem draw_frame_drop_spec_witness :
    draw_frame init_state = (init_state, false)
    ∧ FrameEvt.signalCond ∉ draw_frame_events false
    ∧ FrameEvt.setAvailable ∉ draw_frame_events false
    ∧ FrameEvt.swapBuffers ∉ draw_frame_events false :=
  draw_frame_drop_spec init_state rfl

/-- Witness for C3: entry sets the ready flag, the empty initial state
blocks, a pending shutdown yields the shutdown outcome, and a pending
frame is consumed with both flags cleared. -/
theorem wait_for_frame_spec_witness :
    (wait_enter init_state).ready_to_draw_new_frame = true
    ∧ wait_exit init_state = none
    ∧ wait_exit pending_state = some (pending_state, WaitResult.shutdown)
    ∧ wait_exit avail_state = some (init_state, WaitResult.frame true) :=
  ⟨(wait_for_frame_spec init_state).1,
   (wait_for_frame_spec init_state).2.1.mpr ⟨rfl, rfl⟩,
   (wait_for_frame_spec pending_state).2.2.1 rfl,
   (wait_for_frame_spec avail_state).2.2.2 rfl rfl⟩

/-- Witness for C4: the publish step out of the entered initial state sets
`frame_available` and is indeed a publish taken with the ready flag up. -/
theorem frame_available_transition_spec_witness :
    Label.publish = Label.publish
    ∧ (wait_enter init_state).ready_to_draw_new_frame = true :=
  (frame_available_transition_spec (wait_enter init_state) Label.publish
      (draw_frame (wait_enter init_state)).1
      (Reachable.step Reachable.init (Step.enter init_state))
      (Step.publish (wait_enter init_state))).1 rfl rfl

/-- Witness for C5: one publish from the ready initial state hands its back
buffer to the presenter unchanged. -/
theorem drop_last_publish_spec_witness :
    ((draw_frame ready_state).1.front_buffer = ready_state.back_buffer
      ∧ (∀ i, (draw_frame ready_state).1.store
            (draw_frame ready_state).1.front_buffer i
          = ready_state.store ready_state.back_buffer i)
      ∧ ((draw_frame ready_state).1.pending_sdl_thread_exit = false →
          wait_exit (draw_frame ready_state).1
            = some ({ (draw_frame ready_state).1 with
                        frame_available := false,
                        ready_to_draw_new_frame := false },
                    WaitResult.frame (draw_frame ready_state).1.front_buffer)))
    ∧ (∀ t : FrameState, t.ready_to_draw_new_frame = false →
        run t [POp.publish, POp.publish] = some t) :=
  drop_last_publish_spec ready_state ready_state (draw_frame ready_state).1
    [] [] (by decide) (by decide) rfl (by decide) rfl rfl

/-- Witness for C6: writing at `(255, 239)` succeeds and one past either
bound hits the fatal assertion. -/
theorem put_pixel_bounds_spec_witness :
    put_pixel init_state 255 239 7 = some pixel_state
    ∧ put_pixel init_state 256 239 7 = none
    ∧ put_pixel init_state 255 240 7 = none :=
  ⟨(put_pixel_bounds_spec init_state 255 239 7).1 (by decide) (by decide),
   (put_pixel_bounds_spec init_state 256 239 7).2.1 (by decide),
   (put_pixel_bounds_spec init_state 255 240 7).2.2 (by decide)⟩

/-- Witness for C7 on the spec's concrete instance `keys_lf = [1,0,1]`,
`keys = [1,1,0]`. -/
theorem edge_detect_spec_witness :
    KEY_PRESSED [1, 1, 0] [1, 0, 1] 1 ≠ 0
    ∧ KEY_RELEASED [1, 1, 0] [1, 0, 1] 2 ≠ 0
    ∧ KEY_PRESSED [1, 1, 0] [1, 0, 1] 0 = 0
    ∧ KEY_RELEASED [1, 1, 0] [1, 0, 1] 0 = 0
    ∧ KEY_PRESSED [1, 1, 0] [1, 0, 1] 2 = 0
    ∧ KEY_RELEASED [1, 1, 0] [1, 0, 1] 1 = 0 :=
  (edge_detect_spec [1, 1, 0] [1, 0, 1] rfl
      (fun i => by rcases i with _ | _ | _ | i <;> simp [List.getD])
      (fun i => by rcases i with _ | _ | _ | i <;> simp [List.getD])).2

/-- Witness for C9: a shutdown request from the initial state sets the
flag, signals, and unblocks the wait phase with the shutdown outcome. -/
theorem shutdown_terminal_spec_witness :
    (exit_sdl_thread init_state).1.pending_sdl_thread_exit = true
    ∧ (exit_sdl_thread init_state).2 = true
    ∧ wait_exit (exit_sdl_thread init_state).1
        = some ((exit_sdl_thread init_state).1, WaitResult.shutdown) :=
  ⟨(shutdown_terminal_spec init_state).1,
   (shutdown_terminal_spec init_state).2.1,
   (shutdown_terminal_spec init_state).2.2.2.2.2.1 rfl⟩

/-- Witness for C10 at the concrete write of `7` to `(255, 239)`. -/
theorem put_pixel_frame_effect_spec_witness :
    pixel_state.store init_state.back_buffer (256 * 239 + 255) = 7
    ∧ (∀ i, i ≠ 256 * 239 + 255 →
        pixel_state.store init_state.back_buffer i
          = init_state.store init_state.back_buffer i)
    ∧ (∀ b, b ≠ init_state.back_buffer →
        ∀ i, pixel_state.store b i = init_state.store b i)
    ∧ pixel_state.back_buffer = init_state.back_buffer
    ∧ pixel_state.front_buffer = init_state.front_buffer
    ∧ pixel_state.frame_available = init_state.frame_available
    ∧ pixel_state.ready_to_draw_new_frame = init_state.ready_to_draw_new_frame
    ∧ pixel_state.pending_sdl_thread_exit = init_state.pending_sdl_thread_exit
    ∧ (init_state.back_buffer ≠ init_state.front_buffer →
        ∀ i, pixel_state.store init_state.front_buffer i
          = init_state.store init_state.front_buffer i) :=
  put_pixel_frame_effect_spec init_state 255 239 7 pixel_state rfl

end Nesalizer
